import Mathlib

/-!
Shallow embedding of the open-responses-agent-skill repository
(Python examples and template for the Open Responses API client).

Sources embedded:
- src/examples/python/reasoning_visibility.py : analyze_reasoning_visibility
- src/templates/python/agent_template.py     : get_reasoning, execute_tool,
                                               display_response (per-item part)
- src/examples/python/multi_provider.py       : usage totalling
Parts of the system the spec describes but src does not implement
(the dispatcher wrapping, output_text, the agent loop driver) are modelled
from the spec and marked as such in their doc comments.

Python conventions captured:
- an optional attribute read with getattr(item, f, None) is an Option String;
- Python truthiness of such a value: some s with s nonempty;
- `a or b` on strings picks a when truthy, else b;
- `len(s) // 4` is String.length followed by Nat division.
-/

/-- Python truthiness of an optional-string attribute: present and non-empty. -/
def truthy (o : Option String) : Bool :=
  !(o.getD "").isEmpty

/-- Python `a or b` where a is an optional string attribute and b a string:
returns a when truthy, else b. -/
def pyOrS (a : Option String) (b : String) : String :=
  if truthy a then a.getD "" else b

/-- Reasoning visibility levels (class ReasoningLevel in
reasoning_visibility.py and agent_template.py). -/
inductive ReasoningLevel where
  | RAW
  | SUMMARY
  | ENCRYPTED
  | NONE
deriving DecidableEq

/-- A raw response output item as the Python code sees it: a `type`
discriminant string plus the optional attributes the code probes with
getattr. An absent attribute (or one holding None) is `none`. -/
structure RawItem where
  type : String
  content : Option String := none
  summary : Option String := none
  encrypted_content : Option String := none
  call_id : Option String := none
  name : Option String := none
  arguments : Option String := none
  output : Option String := none
deriving DecidableEq

/-- Usage accounting on a response (`response.usage`). -/
structure Usage where
  input_tokens : Nat
  output_tokens : Nat
deriving DecidableEq

/-- A response aggregate: identity, model, optional usage and the ordered
output item sequence. `usage` is `none` when absent (Python None, falsy). -/
structure Response where
  id : String
  model : String
  usage : Option Usage
  output : List RawItem
deriving DecidableEq

/-- Result record of analyze_reasoning_visibility (the returned dict). -/
structure Analysis where
  level : ReasoningLevel
  reasoning_items : List RawItem
  total_reasoning_tokens : Nat
  details : String
deriving DecidableEq

/-- reasoning_visibility.py, analyze_reasoning_visibility (lines 34-97):
filter the reasoning items, classify visibility by priority
(raw, then summary, then encrypted, else none), and estimate tokens as
sum of len(content or summary or "") // 4 over reasoning items. -/
def analyze_reasoning_visibility (response : Response) : Analysis :=
  let reasoning_items := response.output.filter (fun item => item.type == "reasoning")
  if reasoning_items.isEmpty then
    { level := .NONE
      reasoning_items := []
      total_reasoning_tokens := 0
      details := "No reasoning items found in response." }
  else
    let has_raw_content := reasoning_items.any
      (fun item => truthy item.content && !truthy item.encrypted_content)
    let has_encrypted := reasoning_items.any (fun item => truthy item.encrypted_content)
    let has_summary := reasoning_items.any (fun item => truthy item.summary)
    let total_reasoning_tokens := (reasoning_items.map
      (fun item => (pyOrS item.content (pyOrS item.summary "")).length / 4)).sum
    if has_raw_content then
      { level := .RAW
        reasoning_items := reasoning_items
        total_reasoning_tokens := total_reasoning_tokens
        details := "Full raw reasoning traces available. This model provides complete transparency." }
    else if has_summary then
      { level := .SUMMARY
        reasoning_items := reasoning_items
        total_reasoning_tokens := total_reasoning_tokens
        details := "Summarized reasoning available. Raw traces are not exposed." }
    else if has_encrypted then
      { level := .ENCRYPTED
        reasoning_items := reasoning_items
        total_reasoning_tokens := 0
        details := "Reasoning is encrypted and not accessible to the client." }
    else
      { level := .NONE
        reasoning_items := reasoning_items
        total_reasoning_tokens := 0
        details := "Unknown reasoning format." }

/-- agent_template.py, get_reasoning (lines 145-171): extract the reasoning
level and text from a single output item. -/
def get_reasoning (item : RawItem) : ReasoningLevel × String :=
  if item.type != "reasoning" then (.NONE, "")
  else
    let content := item.content
    let summary := item.summary
    let encrypted_content := item.encrypted_content
    if truthy content && !truthy encrypted_content then (.RAW, content.getD "")
    else if truthy summary then (.SUMMARY, summary.getD "")
    else if truthy encrypted_content then (.ENCRYPTED, "[encrypted]")
    else (.NONE, "")

/-- Python `d.get(key, default)` on a string-to-string dict, the dict as an
association list. -/
def dictGet (d : List (String × String)) (key dflt : String) : String :=
  match d.find? (fun kv => kv.1 == key) with
  | some kv => kv.2
  | none => dflt

/-- agent_template.py, execute_tool (lines 87-104): the hard-coded tool
registry of the template. The decoded arguments dict is an association
list. Unregistered names fall to the default case. -/
def execute_tool (name : String) (arguments : List (String × String)) : String :=
  match name with
  | "example_tool" => "Processed: " ++ dictGet arguments "input" ""
  | _ => "Unknown tool: " ++ name

/-- multi_provider.py (lines 108, 140) and reasoning_visibility.py (line 256):
`response.usage.input_tokens if response.usage else 0`. -/
def usage_in_tokens (r : Response) : Nat :=
  match r.usage with
  | some u => u.input_tokens
  | none => 0

/-- multi_provider.py (lines 109, 141) and reasoning_visibility.py (line 257):
`response.usage.output_tokens if response.usage else 0`. -/
def usage_out_tokens (r : Response) : Nat :=
  match r.usage with
  | some u => u.output_tokens
  | none => 0

/-- multi_provider.py (line 142) and reasoning_visibility.py (line 260):
the reported total usage `in_tokens + out_tokens`. -/
def total_usage (r : Response) : Nat :=
  usage_in_tokens r + usage_out_tokens r

/-- Modelled from the spec: `output_text` is supplied by the openai SDK, not
by code under src/. Spec section 3 defines it as the concatenation of all
`Message.content` values in sequence order, empty when no Message items
exist. -/
def output_text (r : Response) : String :=
  String.join ((r.output.filter (fun item => item.type == "message")).map
    (fun item => item.content.getD ""))

/-- A pending tool invocation (OutputItem variant FunctionCall). -/
structure FunctionCall where
  call_id : String
  name : String
  arguments : String
deriving DecidableEq

/-- The result of executing a FunctionCall, matched by call_id. -/
structure FunctionCallOutput where
  call_id : String
  output : String
deriving DecidableEq

/-- A tool registry: tool name to handler, the handler taking the decoded
arguments dict and returning a string result (spec section 4.4). -/
abbrev Registry : Type :=
  List (String × (List (String × String) → String))

/-- Modelled from the spec: the dispatcher that turns a FunctionCall item
into a FunctionCallOutput item is described in spec section 4.4 but src only
contains the handler side (execute_tool). The argument JSON decoder is an
external collaborator, passed in as `decodeArgs`; decode failure and an
unregistered name both become error-shaped outputs carrying the call_id. -/
def dispatch (registry : Registry) (decodeArgs : String → Option (List (String × String)))
    (call : FunctionCall) : FunctionCallOutput :=
  match decodeArgs call.arguments with
  | none => { call_id := call.call_id, output := "error: malformed arguments JSON" }
  | some args =>
    match (registry : List _).find? (fun kv => kv.1 == call.name) with
    | some kv => { call_id := call.call_id, output := kv.2 args }
    | none => { call_id := call.call_id, output := "Unknown tool: " ++ call.name }

/-- Modelled from the spec: terminal outcomes of the agent loop driver
(spec sections 4.5 and 7): a terminal response aggregate, or the distinct
LoopLimitExceeded state when the iteration bound is hit. -/
inductive LoopResult where
  | terminal (r : Response)
  | loopLimitExceeded
deriving DecidableEq

/-- Modelled from the spec: the Inspecting step of the loop driver (spec
section 4.5) scans the output for FunctionCall items with no matching
FunctionCallOutput for their call_id. -/
def unanswered_calls (output : List RawItem) : List RawItem :=
  output.filter (fun item => item.type == "function_call" &&
    !(output.any (fun o => o.type == "function_call_output" && o.call_id == item.call_id)))

/-- Modelled from the spec: the agent loop driver (spec section 4.5) is not
present in src (spec section 9 notes loop closure is specified, not
observed). `submit` abstracts the transport round trip of each turn;
`turn` counts submissions made so far; the second argument is the remaining
iteration budget. Each iteration submits, inspects for unanswered calls and
either terminates or dispatches and resubmits; an exhausted budget yields
the LoopLimitExceeded terminal state rather than looping forever. -/
def run_loop (submit : Nat → Response) (turn : Nat) : Nat → LoopResult
  | 0 => .loopLimitExceeded
  | n + 1 =>
    let r := submit turn
    if (unanswered_calls r.output).isEmpty then .terminal r
    else run_loop submit (turn + 1) n

/-- Python `s[:n]` on a string. -/
def pySlice (s : String) (n : Nat) : String :=
  s.take n

/-- The `f"{text[:n]}{'...' if len(text) > n else ''}"` truncation idiom of
the display helpers. -/
def truncEllipsis (s : String) (n : Nat) : String :=
  pySlice s n ++ (if s.length > n then "..." else "")

/-- Abstraction of Python `str(item)` used when a whole item is printed. -/
def item_str (item : RawItem) : String :=
  "RawItem(type=" ++ item.type ++ ")"

/-- agent_template.py, display_response, per-item match (lines 190-211):
the lines printed for one output item, together with the updated
tool_call_count. The type discriminant is matched against the four known
kinds; anything else falls to the catch-all case printing
`[{item.type.upper()}] {item}`. -/
def display_item (item : RawItem) (tool_call_count : Nat) : List String × Nat :=
  if item.type == "reasoning" then
    let text := pyOrS item.content (pyOrS item.summary "[encrypted]")
    (["[REASONING] " ++ truncEllipsis text 200], tool_call_count)
  else if item.type == "function_call" then
    let c := tool_call_count + 1
    (["[TOOL CALL #" ++ toString c ++ "] " ++ item.name.getD "unknown",
      "  Arguments: " ++ item.arguments.getD "\x7b\x7d"], c)
  else if item.type == "function_call_output" then
    (["[TOOL RESULT] " ++ truncEllipsis (pyOrS item.output "") 150], tool_call_count)
  else if item.type == "message" then
    (["[RESPONSE] " ++ item.content.getD ""], tool_call_count)
  else
    (["[" ++ item.type.toUpper ++ "] " ++ item_str item], tool_call_count)

/-- C8: For every response, the reported total usage equals
input_tokens + output_tokens when usage is present, and 0 when usage is
absent: absence is replaced by zero before the arithmetic. -/
theorem total_usage_eq (r : Response) :
    total_usage r = match r.usage with
      | some u => u.input_tokens + u.output_tokens
      | none => 0 := by
  cases h : r.usage <;>
    simp [total_usage, usage_in_tokens, usage_out_tokens, h]

/-- C10: For every output item whose type is not "reasoning", get_reasoning
returns the pair (level NONE, empty string). -/
theorem get_reasoning_non_reasoning (item : RawItem) (h : item.type ≠ "reasoning") :
    get_reasoning item = (ReasoningLevel.NONE, "") := by
  simp [get_reasoning, h]

theorem get_reasoning_non_reasoning_witness :
    get_reasoning { type := "message", content := some "hi" } = (ReasoningLevel.NONE, "") :=
  get_reasoning_non_reasoning { type := "message", content := some "hi" } (by decide)

/-- C3: For every tool name not handled by the template registry
(execute_tool only knows "example_tool"), dispatching returns a result
string that contains the literal unregistered name; being a total function
it does not raise. -/
theorem execute_tool_unknown_contains_name (name : String)
    (arguments : List (String × String)) (h : name ≠ "example_tool") :
    ∃ pre post : String, execute_tool name arguments = pre ++ name ++ post := by
  refine ⟨"Unknown tool: ", "", ?_⟩
  unfold execute_tool
  split
  · exact absurd rfl h
  · simp

theorem execute_tool_unknown_contains_name_witness :
    ∃ pre post : String, execute_tool "search" [("query", "q3")] = pre ++ "search" ++ post :=
  execute_tool_unknown_contains_name "search" [("query", "q3")] (by decide)

/-- C2: For every FunctionCall dispatched through a registry containing its
name, the resulting FunctionCallOutput carries exactly the call_id of the
dispatched FunctionCall. -/
theorem dispatch_preserves_call_id (registry : Registry)
    (decodeArgs : String → Option (List (String × String))) (call : FunctionCall)
    (_h : registry.any (fun kv => kv.1 == call.name) = true) :
    (dispatch registry decodeArgs call).call_id = call.call_id := by
  unfold dispatch
  cases decodeArgs call.arguments
  · rfl
  · dsimp only
    split <;> rfl

theorem dispatch_preserves_call_id_witness :
    (dispatch [("known", fun args => "ok: " ++ dictGet args "input" "")]
      (fun _ => some [("input", "x")])
      { call_id := "c1", name := "known",
        arguments := "\x7b\"input\": \"x\"\x7d" }).call_id = "c1" :=
  dispatch_preserves_call_id _ _ _ (by decide)

/-- C9: For every output item whose type discriminant is none of the four
known kinds, display_item is handled by the catch-all branch: it returns
the catch-all line and leaves the tool-call counter unchanged, and being a
total function it never fails. -/
theorem display_item_unknown_kind (item : RawItem) (c : Nat)
    (h1 : item.type ≠ "reasoning") (h2 : item.type ≠ "function_call")
    (h3 : item.type ≠ "function_call_output") (h4 : item.type ≠ "message") :
    display_item item c = (["[" ++ item.type.toUpper ++ "] " ++ item_str item], c) := by
  simp [display_item, h1, h2, h3, h4]

theorem display_item_unknown_kind_witness :
    display_item { type := "web_search_call" } 0 =
      (["[" ++ ("web_search_call" : String).toUpper ++ "] " ++
        item_str { type := "web_search_call" }], 0) :=
  display_item_unknown_kind { type := "web_search_call" } 0
    (by decide) (by decide) (by decide) (by decide)

/-- C1: If the output contains a reasoning item with non-empty content and
empty encrypted_content, the visibility resolver returns level RAW,
regardless of any other reasoning items present (summary-only items have
lower priority). -/
theorem raw_content_wins (r : Response)
    (h : ∃ i ∈ r.output, i.type = "reasoning" ∧ truthy i.content = true ∧
      truthy i.encrypted_content = false) :
    (analyze_reasoning_visibility r).level = ReasoningLevel.RAW := by
  obtain ⟨i, hmem, htype, hc, he⟩ := h
  have hmemf : i ∈ r.output.filter (fun item => item.type == "reasoning") := by
    rw [List.mem_filter]
    exact ⟨hmem, by rw [htype]; rfl⟩
  have hne : (r.output.filter (fun item => item.type == "reasoning")).isEmpty = false := by
    rw [List.isEmpty_eq_false]
    exact List.ne_nil_of_mem hmemf
  have hraw : (r.output.filter (fun item => item.type == "reasoning")).any
      (fun item => truthy item.content && !truthy item.encrypted_content) = true := by
    rw [List.any_eq_true]
    exact ⟨i, hmemf, by rw [hc, he]; rfl⟩
  simp [analyze_reasoning_visibility, hne, hraw]

theorem raw_content_wins_witness :
    (analyze_reasoning_visibility
      { id := "r1", model := "m", usage := none,
        output := [ { type := "reasoning", content := some "step one" },
                    { type := "reasoning", summary := some "a summary" },
                    { type := "message", content := some "done" } ] }).level =
      ReasoningLevel.RAW :=
  raw_content_wins _
    ⟨{ type := "reasoning", content := some "step one" },
      by decide, by decide, by decide, by decide⟩

/-- C4: For a non-empty set of reasoning items where no item has truthy
content or summary and at least one has truthy encrypted_content, the
resolver returns level ENCRYPTED with a token estimate of exactly 0. -/
theorem encrypted_only_zero_tokens (r : Response)
    (hne : r.output.filter (fun item => item.type == "reasoning") ≠ [])
    (hno : ∀ i ∈ r.output.filter (fun item => item.type == "reasoning"),
      truthy i.content = false ∧ truthy i.summary = false)
    (henc : ∃ i ∈ r.output.filter (fun item => item.type == "reasoning"),
      truthy i.encrypted_content = true) :
    (analyze_reasoning_visibility r).level = ReasoningLevel.ENCRYPTED ∧
    (analyze_reasoning_visibility r).total_reasoning_tokens = 0 := by
  have hE : (r.output.filter (fun item => item.type == "reasoning")).isEmpty = false := by
    rw [List.isEmpty_eq_false]; exact hne
  have hR : (r.output.filter (fun item => item.type == "reasoning")).any
      (fun item => truthy item.content && !truthy item.encrypted_content) = false := by
    rw [List.any_eq_false]
    intro i hi
    rw [(hno i hi).1]
    simp
  have hS : (r.output.filter (fun item => item.type == "reasoning")).any
      (fun item => truthy item.summary) = false := by
    rw [List.any_eq_false]
    intro i hi
    rw [(hno i hi).2]
    simp
  have hEnc : (r.output.filter (fun item => item.type == "reasoning")).any
      (fun item => truthy item.encrypted_content) = true := by
    rw [List.any_eq_true]
    obtain ⟨i, hi, h⟩ := henc
    exact ⟨i, hi, h⟩
  constructor <;> simp [analyze_reasoning_visibility, hE, hR, hS, hEnc]

theorem encrypted_only_zero_tokens_witness :
    (analyze_reasoning_visibility
      { id := "r2", model := "m", usage := none,
        output := [ { type := "reasoning", encrypted_content := some "opaque-blob" },
                    { type := "message", content := some "ok" } ] }).level =
        ReasoningLevel.ENCRYPTED ∧
    (analyze_reasoning_visibility
      { id := "r2", model := "m", usage := none,
        output := [ { type := "reasoning", encrypted_content := some "opaque-blob" },
                    { type := "message", content := some "ok" } ] }).total_reasoning_tokens =
      0 :=
  encrypted_only_zero_tokens _ (by decide) (by decide)
    ⟨{ type := "reasoning", encrypted_content := some "opaque-blob" }, by decide, by decide⟩

/-- C5: Whenever the resolver classifies visibility as RAW or SUMMARY, the
reported token estimate equals the sum over all reasoning items of
floor(len(content, or summary when content is not truthy) / 4). -/
theorem token_estimate_raw_or_summary (r : Response)
    (h : (analyze_reasoning_visibility r).level = ReasoningLevel.RAW ∨
      (analyze_reasoning_visibility r).level = ReasoningLevel.SUMMARY) :
    (analyze_reasoning_visibility r).total_reasoning_tokens =
      ((r.output.filter (fun item => item.type == "reasoning")).map
        (fun item => (pyOrS item.content (pyOrS item.summary "")).length / 4)).sum := by
  by_cases hE : (r.output.filter (fun item => item.type == "reasoning")).isEmpty = true
  · exfalso
    rcases h with h | h <;> simp [analyze_reasoning_visibility, hE] at h
  · rw [Bool.not_eq_true] at hE
    by_cases hR : (r.output.filter (fun item => item.type == "reasoning")).any
        (fun item => truthy item.content && !truthy item.encrypted_content) = true
    · simp [analyze_reasoning_visibility, hE, hR]
    · rw [Bool.not_eq_true] at hR
      by_cases hS : (r.output.filter (fun item => item.type == "reasoning")).any
          (fun item => truthy item.summary) = true
      · simp [analyze_reasoning_visibility, hE, hR, hS]
      · rw [Bool.not_eq_true] at hS
        exfalso
        by_cases hEnc : (r.output.filter (fun item => item.type == "reasoning")).any
            (fun item => truthy item.encrypted_content) = true
        · rcases h with h | h <;>
            simp [analyze_reasoning_visibility, hE, hR, hS, hEnc] at h
        · rw [Bool.not_eq_true] at hEnc
          rcases h with h | h <;>
            simp [analyze_reasoning_visibility, hE, hR, hS, hEnc] at h

theorem token_estimate_raw_or_summary_witness :
    (analyze_reasoning_visibility
      { id := "r3", model := "m", usage := none,
        output := [ { type := "reasoning", content := some "twelve chars" },
                    { type := "reasoning", summary := some "short" } ] }).total_reasoning_tokens =
      ((({ id := "r3", model := "m", usage := none,
            output := [ { type := "reasoning", content := some "twelve chars" },
                        { type := "reasoning", summary := some "short" } ] } :
              Response).output.filter (fun item => item.type == "reasoning")).map
        (fun item => (pyOrS item.content (pyOrS item.summary "")).length / 4)).sum :=
  token_estimate_raw_or_summary _ (Or.inl (by decide))

/-- C6: For every response aggregate with an empty output sequence,
output_text is the empty string and the resolver returns level NONE with a
zero token estimate and an empty reasoning-item list. -/
theorem empty_output_views (r : Response) (h : r.output = []) :
    output_text r = "" ∧
    (analyze_reasoning_visibility r).level = ReasoningLevel.NONE ∧
    (analyze_reasoning_visibility r).total_reasoning_tokens = 0 ∧
    (analyze_reasoning_visibility r).reasoning_items = [] := by
  refine ⟨?_, ?_, ?_, ?_⟩ <;>
    simp [output_text, analyze_reasoning_visibility, h, String.join]

theorem empty_output_views_witness :
    output_text { id := "r4", model := "m", usage := none, output := [] } = "" ∧
    (analyze_reasoning_visibility
      { id := "r4", model := "m", usage := none, output := [] }).level =
        ReasoningLevel.NONE ∧
    (analyze_reasoning_visibility
      { id := "r4", model := "m", usage := none, output := [] }).total_reasoning_tokens = 0 ∧
    (analyze_reasoning_visibility
      { id := "r4", model := "m", usage := none, output := [] }).reasoning_items = [] :=
  empty_output_views { id := "r4", model := "m", usage := none, output := [] } rfl

/-- C7: A model that on every turn returns another FunctionCall (and no
answering FunctionCallOutput, hence never a terminal Message-only output)
makes the loop driver stop at the configured finite iteration bound with
the distinct LoopLimitExceeded terminal state, for every bound and starting
turn. -/
theorem run_loop_always_calls_limit (submit : Nat → Response)
    (h : ∀ t, ((submit t).output.any (fun i => i.type == "function_call")) = true ∧
      ((submit t).output.any (fun i => i.type == "function_call_output")) = false)
    (maxIters turn : Nat) :
    run_loop submit turn maxIters = LoopResult.loopLimitExceeded := by
  induction maxIters generalizing turn with
  | zero => rfl
  | succ n ih =>
    obtain ⟨hcall, hout⟩ := h turn
    rw [List.any_eq_true] at hcall
    obtain ⟨i, hi, hitype⟩ := hcall
    have hinner : ((submit turn).output.any
        (fun o => o.type == "function_call_output" && o.call_id == i.call_id)) = false := by
      rw [List.any_eq_false] at hout ⊢
      intro o ho
      have h1 := hout o ho
      simp only [Bool.not_eq_true] at h1
      simp [h1]
    have hmem : i ∈ unanswered_calls (submit turn).output := by
      unfold unanswered_calls
      rw [List.mem_filter]
      exact ⟨hi, by rw [hitype, hinner]; rfl⟩
    have hpending : (unanswered_calls (submit turn).output).isEmpty = false := by
      rw [List.isEmpty_eq_false]
      exact List.ne_nil_of_mem hmem
    rw [run_loop]
    simp only [hpending]
    simpa using ih (turn + 1)

theorem run_loop_always_calls_limit_witness :
    run_loop
      (fun t =>
        { id := "r5", model := "m", usage := none,
          output := [ { type := "function_call", call_id := some ("c" ++ toString t),
                        name := some "search_documents",
                        arguments := some "\x7b\"query\": \"q3\"\x7d" } ] })
      0 3 = LoopResult.loopLimitExceeded :=
  run_loop_always_calls_limit _ (fun t => by constructor <;> rfl) 3 0
